import Mathlib

/-!
Verification of the Preacher.ai backend (`src/backend/server.py`).

We give a shallow embedding of the parts of the backend that carry logic:
text normalization (`validate_and_prepare_message`), language detection
(`detect_language`), the sliding-window rate limiter (`rate_limit`
decorator), retrieval post-processing (`get_bible_verses`), the guidance
fallback logic (`get_biblical_guidance`) and the chat endpoint pipeline
(`chat_endpoint`), and prove spec-level properties about them.

Python strings are modelled as `List Char`.  Machine floats are modelled by
exact number types, since only comparisons on them matter to the properties
proved here: FAISS distances as rationals, and `time.time()` timestamps as
integers (the rate limiter only compares and counts timestamps, so nothing
below depends on the granularity; all rate-limiter theorems are parametric
in the timestamp values).  External collaborators (MongoDB, the
Gemini generation call, the FAISS library search, the stdlib UUID check)
appear as explicit parameters of the pipeline: the generation outcome is a
`GenResult`, the session-id shape check result is a boolean, persistence is
an output list of persisted messages, and the FAISS search result is a list
of (corpus position, distance) pairs.
-/

set_option maxRecDepth 20000

/-- ASCII whitespace, the character class matched by the regex class used in
`re.sub` in the source and stripped by Python `str.strip` (on ASCII text). -/
def isSpace (c : Char) : Bool :=
  c = ' ' || c = '\t' || c = '\n' || c = '\r' || c.toNat = 11 || c.toNat = 12

/-- Python `str.strip()` on ASCII-whitespace: drop leading and trailing runs. -/
def pyStrip (l : List Char) : List Char :=
  ((l.dropWhile isSpace).reverse.dropWhile isSpace).reverse

/-- Python `str.rstrip()`: drop the trailing whitespace run. -/
def pyRstrip (l : List Char) : List Char :=
  (l.reverse.dropWhile isSpace).reverse

/-- Helper for the whitespace-collapsing regex substitution: the boolean
records whether the previous character was whitespace (already emitted as
a single space). -/
def collapseAux : Bool → List Char → List Char
  | _, [] => []
  | prevSpace, c :: cs =>
    if isSpace c then
      if prevSpace then collapseAux true cs
      else ' ' :: collapseAux true cs
    else c :: collapseAux false cs

/-- The substitution replacing every maximal whitespace run by one space,
as performed by `re.sub` with the whitespace class in the source. -/
def collapseWs (l : List Char) : List Char := collapseAux false l

/-- The characters stripped by the XSS-prevention substitution in
`validate_and_prepare_message` and `sanitize_input`: `<` (60), `>` (62),
left brace (123) and right brace (125). -/
def isHarmful (c : Char) : Bool :=
  c.toNat = 60 || c.toNat = 62 || c.toNat = 123 || c.toNat = 125

/-- `re.sub` removing the four harmful characters. -/
def removeHarmful (l : List Char) : List Char := l.filter (fun c => !(isHarmful c))

/-- The three-character ellipsis marker appended on hard truncation. -/
def ellipsis : List Char := ['.', '.', '.']

/-- Python `message.split('. ')`: split on the exact two-character
separator, left to right, non-overlapping.  First argument is the reversed
accumulator of the current segment. -/
def splitDotSpace (acc : List Char) : List Char → List (List Char)
  | [] => [acc.reverse]
  | [c] => [(c :: acc).reverse]
  | c1 :: c2 :: rest =>
    if c1 = '.' ∧ c2 = ' ' then acc.reverse :: splitDotSpace [] rest
    else splitDotSpace (c1 :: acc) (c2 :: rest)

/-- The sentence-accumulation loop of the AI branch of
`validate_and_prepare_message`: keep appending `sentence + '. '` while the
running length stays within the bound, stop at the first segment that does
not fit. -/
def accumSentences (maxLength : Nat) : List Char → List (List Char) → List Char
  | truncated, [] => truncated
  | truncated, s :: ss =>
    if (truncated ++ s ++ ['.', ' ']).length ≤ maxLength then
      accumSentences maxLength (truncated ++ s ++ ['.', ' ']) ss
    else truncated

/-- The `if len(message) > max_length` block of
`validate_and_prepare_message`: AI messages prefer a sentence boundary and
fall back to a hard cut plus ellipsis; other senders are hard cut. -/
def truncateMessage (m : List Char) (sender : String) (maxLength : Nat) : List Char :=
  if maxLength < m.length then
    if sender = "ai" then
      let truncated := accumSentences maxLength [] (splitDotSpace [] m)
      if truncated = [] then m.take maxLength ++ ellipsis else pyRstrip truncated
    else m.take maxLength ++ ellipsis
  else m

/-- `validate_and_prepare_message(message, sender)` from the source: empty
or whitespace-only input maps to the empty string; otherwise strip, collapse
whitespace runs, truncate to the sender-specific bound (1000 for users,
2500 otherwise), and remove the harmful characters. -/
def validate_and_prepare_message (message : List Char) (sender : String) : List Char :=
  if pyStrip message = [] then []
  else
    removeHarmful
      (truncateMessage (collapseWs (pyStrip message)) sender
        (if sender = "user" then 1000 else 2500))

/-- `detect_language`: Hindi iff some character lies in the Devanagari
block U+0900 to U+097F. -/
def detect_language (text : List Char) : String :=
  if text.any (fun c => 0x900 ≤ c.toNat && c.toNat ≤ 0x97F) then "hindi" else "english"

/-- `RATE_LIMIT_REQUESTS` from the source (requests per window). -/
def RATE_LIMIT_REQUESTS : Nat := 10

/-- `RATE_LIMIT_WINDOW` from the source (seconds). -/
def RATE_LIMIT_WINDOW : ℤ := 60

/-- The pruning step of the `rate_limit` decorator: keep only the
timestamps with `current_time - req_time < window`. -/
def pruneWindow (w : List ℤ) (now : ℤ) : List ℤ :=
  w.filter (fun t => now - t < RATE_LIMIT_WINDOW)

/-- One admission check of the `rate_limit` decorator: prune, reject when
the pruned window already holds `RATE_LIMIT_REQUESTS` timestamps (the new
timestamp is then not recorded), otherwise append `now` and admit.  Returns
(admitted?, stored window after the call). -/
def rate_limit (w : List ℤ) (now : ℤ) : Bool × List ℤ :=
  let pruned := pruneWindow w now
  if RATE_LIMIT_REQUESTS ≤ pruned.length then (false, pruned)
  else (true, pruned ++ [now])

/-- Fold `rate_limit` over a list of call times, collecting the admission
flags and the final stored window. -/
def runCalls (times : List ℤ) (w : List ℤ) : List Bool × List ℤ :=
  match times with
  | [] => ([], w)
  | t :: ts =>
    let r := rate_limit w t
    let rest := runCalls ts r.2
    (r.1 :: rest.1, rest.2)

/-- One record of the verse corpus, as loaded from the JSON files. -/
structure VerseRec where
  book : String
  chapter : Nat
  verse : Nat
  text : String

/-- The retrieval result unit built in `get_bible_verses`. -/
structure Citation where
  reference : String
  text : String
  score : ℚ
deriving DecidableEq

/-- The similarity threshold `10.0` hard-coded in `get_bible_verses`. -/
def SIMILARITY_THRESHOLD : ℚ := 10

/-- The reference string `f"{book} {chapter}:{verse}"`. -/
def mkReference (v : VerseRec) : String :=
  v.book ++ " " ++ toString v.chapter ++ ":" ++ toString v.verse

/-- The result-building loop of `get_bible_verses`: given the raw FAISS
search output (pairs of corpus position and distance, in search order) and
the position-to-record map built in `create_faiss_index`, keep the pairs
with distance strictly below the threshold and map each surviving pair to a
Citation, in order.  The index selection by language and the empty result
on a missing index or model are handled by the caller-visible parameters:
a missing index corresponds to an empty search result. -/
def get_bible_verses (searchRes : List (Nat × ℚ)) (verseMap : Nat → VerseRec) :
    List Citation :=
  (searchRes.filter (fun p => p.2 < SIMILARITY_THRESHOLD)).map
    (fun p => ⟨mkReference (verseMap p.1), (verseMap p.1).text, p.2⟩)

/-- Squared Euclidean distance between two vectors (the metric of the
`IndexFlatL2` FAISS index used in `create_faiss_index`). -/
def sqDist (u v : List ℚ) : ℚ :=
  ((u.zip v).map (fun p => (p.1 - p.2) * (p.1 - p.2))).sum

/-- The ordering of search results: ascending distance, ties broken by
ascending corpus position. -/
def lexLe (a b : Nat × ℚ) : Prop := a.2 < b.2 ∨ (a.2 = b.2 ∧ a.1 ≤ b.1)

instance : DecidableRel lexLe := fun a b => by
  unfold lexLe; infer_instance

instance : IsTotal (Nat × ℚ) lexLe := ⟨by
  intro a b
  rcases lt_trichotomy a.2 b.2 with h | h | h
  · exact Or.inl (Or.inl h)
  · rcases Nat.le_total a.1 b.1 with hn | hn
    · exact Or.inl (Or.inr ⟨h, hn⟩)
    · exact Or.inr (Or.inr ⟨h.symm, hn⟩)
  · exact Or.inr (Or.inl h)⟩

instance : IsTrans (Nat × ℚ) lexLe := ⟨by
  intro a b c hab hbc
  rcases hab with h1 | ⟨e1, n1⟩ <;> rcases hbc with h2 | ⟨e2, n2⟩
  · exact Or.inl (h1.trans h2)
  · exact Or.inl (lt_of_lt_of_le h1 (le_of_eq e2))
  · exact Or.inl (lt_of_le_of_lt (le_of_eq e1) h2)
  · exact Or.inr ⟨e1.trans e2, n1.trans n2⟩⟩

/-- Modelled from the spec: the `index.search(query_embedding, k)` call of
`get_bible_verses` goes to the FAISS library, whose implementation is not
part of this repository.  Following the spec, the search is exact
k-nearest-neighbor by (squared) Euclidean distance over the corpus
embeddings: all (position, distance) pairs sorted ascending by distance
with ties broken by ascending corpus position, truncated to the first `k`. -/
def indexSearch (corpus : List (List ℚ)) (query : List ℚ) (k : Nat) :
    List (Nat × ℚ) :=
  (List.insertionSort lexLe
    ((List.range corpus.length).zip (corpus.map (sqDist query)))).take k

/-- The outcome of the guarded `chat.send_message` call in
`get_biblical_guidance`: a timeout of the 30-second bounded wait, any other
exception (transport, auth, client construction), or a returned text. -/
inductive GenResult where
  | timeout
  | failure
  | ok (text : List Char)

/-- The `BiblicalResponse` model of the source. -/
structure BiblicalResponse where
  response : List Char
  cited_verses : List Citation
  language : String
deriving DecidableEq

/-- U+0027, spliced into the transcribed fallback strings. -/
def apos : Char := Char.ofNat 39

/-- Response for an empty or under-3-character user message. -/
def responseTooShortQuery : List Char :=
  "Please ask a more specific question for biblical guidance.".toList

/-- Response when the generation API key is not configured. -/
def responseNoApiKey : List Char :=
  "I apologize, but I".toList ++ [apos] ++
  "m having trouble accessing the AI service right now. Please try again later.".toList

/-- Response for a generation timeout (fallback A of the spec). -/
def responseTimeout : List Char :=
  "I apologize for the delay. Please try asking your question again.".toList

/-- Response for an empty or too-short generated text (fallback B). -/
def responseShortAi : List Char :=
  "Let me think more about your question. Could you please rephrase it or provide more context?".toList

/-- English entry of the `fallback_responses` table (fallback C). -/
def fallbackEnglish : List Char :=
  "I apologize, but I".toList ++ [apos] ++
  "m experiencing technical difficulties right now. Please try again in a moment. Remember, ".toList
  ++ [apos] ++
  "The Lord is near to all who call on him, to all who call on him in truth.".toList
  ++ [apos] ++ " - Psalm 145:18".toList

/-- Hindi entry of the `fallback_responses` table. -/
def fallbackHindi : List Char :=
  "मुझे खुशी है, लेकिन मैं अभी तकनीकी कठिनाइयों का सामना कर रहा हूं। कृपया एक पल में फिर से कोशिश करें।".toList

/-- `fallback_responses.get(language, fallback_responses["english"])`. -/
def fallbackResponsesGet (language : String) : List Char :=
  if language = "hindi" then fallbackHindi else fallbackEnglish

/-- `get_biblical_guidance` from the source.  The Gemini call is the
external `gen` outcome; the key presence is the boolean `geminiKey`; the
FAISS search result feeding `get_bible_verses` is `searchRes`/`verseMap`.
The outer exception handler corresponds to `GenResult.failure`. -/
def get_biblical_guidance (user_message : List Char) (language : String)
    (geminiKey : Bool) (gen : GenResult)
    (searchRes : List (Nat × ℚ)) (verseMap : Nat → VerseRec) : BiblicalResponse :=
  if user_message = [] ∨ (pyStrip user_message).length < 3 then
    ⟨responseTooShortQuery, [], language⟩
  else if geminiKey = false then
    ⟨responseNoApiKey, [], language⟩
  else
    match gen with
    | GenResult.timeout => ⟨responseTimeout, [], language⟩
    | GenResult.failure => ⟨fallbackResponsesGet language, [], language⟩
    | GenResult.ok t =>
      if t = [] ∨ (pyStrip t).length < 10 then ⟨responseShortAi, [], language⟩
      else ⟨t, get_bible_verses searchRes verseMap, language⟩

/-- The error raised via `HTTPException` (status code and detail). -/
structure HTTPErr where
  status_code : Nat
  detail : String
deriving DecidableEq

/-- The dictionary returned by `chat_endpoint` on the non-error path. -/
structure ChatResponse where
  response : List Char
  cited_verses : List Citation
  session_id : String
  language : String
  status : String
deriving DecidableEq

/-- A message as inserted into `db.chat_messages`. -/
structure PersistedMsg where
  sender : String
  text : List Char
  language : String
  cited_verses : List Citation
deriving DecidableEq

deriving instance DecidableEq for Except

/-- The observable outcome of one `chat_endpoint` call: the HTTP result,
the rate-limit window stored after the call, the messages inserted into the
store (in insertion order), and the language of the session record created
when the session id was unseen (`none` when it already existed). -/
structure ChatOutcome where
  result : Except HTTPErr ChatResponse
  window : List ℤ
  persisted : List PersistedMsg
  sessionLanguage : Option String
deriving DecidableEq

/-- The body of `chat_endpoint` (everything inside the `rate_limit`
wrapper), given the already-updated window `w`.  `sessionValid` is the
result of the stdlib UUID shape check `validate_session_id` (an empty
session id never validates, so the `not session_id` guard of the source is
subsumed).  The `ChatMessage` validator rejecting a whitespace-only message
is the `pyStrip _ = []` test before each insertion; for the user message
this exception becomes a 500, for the AI message it is swallowed and only
skips the insertion. -/
def chatBody (w : List ℤ) (raw : List Char) (session_id : String)
    (sessionValid sessionExists geminiKey : Bool) (gen : GenResult)
    (searchRes : List (Nat × ℚ)) (verseMap : Nat → VerseRec) : ChatOutcome :=
  if pyStrip raw = [] then
    ⟨Except.error ⟨400, "Message cannot be empty"⟩, w, [], none⟩
  else if sessionValid = false then
    ⟨Except.error ⟨400, "Invalid session ID"⟩, w, [], none⟩
  else
    let um := validate_and_prepare_message (pyStrip raw) "user"
    let language := detect_language um
    let sessLang := if sessionExists then none else some language
    if pyStrip um = [] then
      ⟨Except.error ⟨500, "Error saving message"⟩, w, [], sessLang⟩
    else
      let br := get_biblical_guidance um language geminiKey gen searchRes verseMap
      let aiText := validate_and_prepare_message br.response "ai"
      let aiMsgs : List PersistedMsg :=
        if pyStrip aiText = [] then [] else [⟨"ai", aiText, language, br.cited_verses⟩]
      ⟨Except.ok ⟨br.response, br.cited_verses, session_id, language, "success"⟩,
       w, ⟨"user", um, language, []⟩ :: aiMsgs, sessLang⟩

/-- `chat_endpoint` from the source: the `rate_limit()` decorator runs
first (prune, then either reject with 429 or record the timestamp), and
only then the endpoint body with its validation chain. -/
def chat_endpoint (w : List ℤ) (now : ℤ) (raw : List Char) (session_id : String)
    (sessionValid sessionExists geminiKey : Bool) (gen : GenResult)
    (searchRes : List (Nat × ℚ)) (verseMap : Nat → VerseRec) : ChatOutcome :=
  if RATE_LIMIT_REQUESTS ≤ (pruneWindow w now).length then
    ⟨Except.error ⟨429, "Too many requests. Please wait before sending another message."⟩,
     pruneWindow w now, [], none⟩
  else
    chatBody (pruneWindow w now ++ [now]) raw session_id
      sessionValid sessionExists geminiKey gen searchRes verseMap

/-- A placeholder verse map for concrete runs (the map contents are
irrelevant whenever the search result is empty). -/
def defaultVerseMap : Nat → VerseRec := fun _ => ⟨"John", 3, 16, "For God so loved the world"⟩

/-! ## Helper lemmas -/

theorem dropWhile_eq_self_of_forall {p : Char → Bool} :
    ∀ {l : List Char}, (∀ x ∈ l, p x = false) → l.dropWhile p = l
  | [], _ => rfl
  | c :: cs, h => by
    rw [List.dropWhile_cons, h c (List.mem_cons_self c cs)]
    simp

theorem pyStrip_eq_self {l : List Char} (h : ∀ x ∈ l, isSpace x = false) :
    pyStrip l = l := by
  unfold pyStrip
  rw [dropWhile_eq_self_of_forall h,
    dropWhile_eq_self_of_forall (fun x hx => h x (List.mem_reverse.mp hx)),
    List.reverse_reverse]

theorem pyStrip_nil : pyStrip [] = [] := rfl

theorem collapseAux_eq_self {l : List Char} (h : ∀ x ∈ l, isSpace x = false) :
    ∀ b, collapseAux b l = l := by
  induction l with
  | nil => intro b; rfl
  | cons c cs ih =>
    intro b
    unfold collapseAux
    rw [if_neg (by simp [h c (List.mem_cons_self c cs)])]
    rw [ih (fun x hx => h x (List.mem_cons_of_mem c hx)) false]

theorem collapseWs_eq_self {l : List Char} (h : ∀ x ∈ l, isSpace x = false) :
    collapseWs l = l :=
  collapseAux_eq_self h false

theorem removeHarmful_eq_self {l : List Char} (h : ∀ x ∈ l, isHarmful x = false) :
    removeHarmful l = l := by
  unfold removeHarmful
  apply List.filter_eq_self.mpr
  intro a ha
  simp [h a ha]

theorem removeHarmful_length_le (l : List Char) :
    (removeHarmful l).length ≤ l.length :=
  List.length_filter_le _ _

theorem pyRstrip_length_le (l : List Char) : (pyRstrip l).length ≤ l.length := by
  unfold pyRstrip
  rw [List.length_reverse]
  exact le_trans (List.dropWhile_sublist isSpace).length_le
    (le_of_eq (List.length_reverse _))

theorem accumSentences_length_le (maxLength : Nat) :
    ∀ (ss : List (List Char)) (tr : List Char),
      tr.length ≤ maxLength → (accumSentences maxLength tr ss).length ≤ maxLength
  | [], _, h => h
  | s :: ss, tr, h => by
    unfold accumSentences
    split
    next h2 => exact accumSentences_length_le maxLength ss _ h2
    next => exact h

theorem truncateMessage_length_le (m : List Char) (s : String) (L : Nat) :
    (truncateMessage m s L).length ≤ L + 3 := by
  simp only [truncateMessage]
  split
  next hlt =>
    split
    next =>
      split
      next =>
        simp only [ellipsis, List.length_append, List.length_take, List.length_cons,
          List.length_nil]
        omega
      next =>
        have hacc := accumSentences_length_le L (splitDotSpace [] m) [] (by simp)
        exact le_trans (pyRstrip_length_le _) (le_trans hacc (by omega))
    next =>
      simp only [ellipsis, List.length_append, List.length_take, List.length_cons,
        List.length_nil]
      omega
  next hnlt => omega

theorem vapm_length_le (msg : List Char) (s : String) :
    (validate_and_prepare_message msg s).length ≤
      (if s = "user" then 1000 else 2500) + 3 := by
  unfold validate_and_prepare_message
  split
  · simp
  · exact le_trans (removeHarmful_length_le _) (truncateMessage_length_le _ _ _)

theorem splitDotSpace_no_dot :
    ∀ (l acc : List Char), (∀ x ∈ l, x ≠ '.') →
      splitDotSpace acc l = [acc.reverse ++ l]
  | [], acc, _ => by simp [splitDotSpace]
  | [c], acc, _ => by simp [splitDotSpace]
  | c1 :: c2 :: rest, acc, h => by
    unfold splitDotSpace
    rw [if_neg (fun hc => h c1 (List.mem_cons_self _ _) hc.1)]
    rw [splitDotSpace_no_dot (c2 :: rest) (c1 :: acc)
      (fun x hx => h x (List.mem_cons_of_mem _ hx))]
    simp

theorem mem_replicate_pred {n : Nat} {c : Char} {P : Char → Prop} (hc : P c) :
    ∀ x ∈ List.replicate n c, P x := by
  intro x hx
  rw [List.eq_of_mem_replicate hx]
  exact hc

theorem chat_endpoint_admitted (w : List ℤ) (now : ℤ) (raw : List Char)
    (sid : String) (sv se gk : Bool) (gen : GenResult)
    (sr : List (Nat × ℚ)) (vm : Nat → VerseRec)
    (hquota : (pruneWindow w now).length < RATE_LIMIT_REQUESTS) :
    chat_endpoint w now raw sid sv se gk gen sr vm =
      chatBody (pruneWindow w now ++ [now]) raw sid sv se gk gen sr vm := by
  unfold chat_endpoint
  rw [if_neg (Nat.not_le.mpr hquota)]

theorem chatBody_ok (w : List ℤ) (raw : List Char) (sid : String)
    (se gk : Bool) (gen : GenResult) (sr : List (Nat × ℚ)) (vm : Nat → VerseRec)
    (hraw : ¬ pyStrip raw = [])
    (hum : ¬ pyStrip (validate_and_prepare_message (pyStrip raw) "user") = []) :
    chatBody w raw sid true se gk gen sr vm =
      ⟨Except.ok
        ⟨(get_biblical_guidance (validate_and_prepare_message (pyStrip raw) "user")
            (detect_language (validate_and_prepare_message (pyStrip raw) "user"))
            gk gen sr vm).response,
         (get_biblical_guidance (validate_and_prepare_message (pyStrip raw) "user")
            (detect_language (validate_and_prepare_message (pyStrip raw) "user"))
            gk gen sr vm).cited_verses,
         sid,
         detect_language (validate_and_prepare_message (pyStrip raw) "user"),
         "success"⟩,
       w,
       ⟨"user", validate_and_prepare_message (pyStrip raw) "user",
        detect_language (validate_and_prepare_message (pyStrip raw) "user"), []⟩ ::
       (if pyStrip (validate_and_prepare_message
            (get_biblical_guidance (validate_and_prepare_message (pyStrip raw) "user")
              (detect_language (validate_and_prepare_message (pyStrip raw) "user"))
              gk gen sr vm).response "ai") = [] then []
        else [⟨"ai",
          validate_and_prepare_message
            (get_biblical_guidance (validate_and_prepare_message (pyStrip raw) "user")
              (detect_language (validate_and_prepare_message (pyStrip raw) "user"))
              gk gen sr vm).response "ai",
          detect_language (validate_and_prepare_message (pyStrip raw) "user"),
          (get_biblical_guidance (validate_and_prepare_message (pyStrip raw) "user")
            (detect_language (validate_and_prepare_message (pyStrip raw) "user"))
            gk gen sr vm).cited_verses⟩]),
       if se then none else some
         (detect_language (validate_and_prepare_message (pyStrip raw) "user"))⟩ := by
  unfold chatBody
  rw [if_neg hraw, if_neg (by simp), if_neg hum]

theorem guidance_timeout (um : List Char) (lang : String)
    (sr : List (Nat × ℚ)) (vm : Nat → VerseRec)
    (h3 : 3 ≤ (pyStrip um).length) :
    get_biblical_guidance um lang true GenResult.timeout sr vm =
      ⟨responseTimeout, [], lang⟩ := by
  unfold get_biblical_guidance
  rw [if_neg, if_neg (by simp)]
  rintro (rfl | hlen)
  · rw [pyStrip_nil] at h3; simp at h3
  · omega

theorem guidance_ok (um : List Char) (lang : String) (t : List Char)
    (sr : List (Nat × ℚ)) (vm : Nat → VerseRec)
    (h3 : 3 ≤ (pyStrip um).length) (h10 : 10 ≤ (pyStrip t).length) :
    get_biblical_guidance um lang true (GenResult.ok t) sr vm =
      ⟨t, get_bible_verses sr vm, lang⟩ := by
  unfold get_biblical_guidance
  rw [if_neg, if_neg (by simp)]
  · dsimp only
    rw [if_neg]
    rintro (rfl | hlen)
    · rw [pyStrip_nil] at h10; simp at h10
    · omega
  · rintro (rfl | hlen)
    · rw [pyStrip_nil] at h3; simp at h3
    · omega

theorem vapm_user_hard_cut (l : List Char)
    (hs : ∀ x ∈ l, isSpace x = false) (hh : ∀ x ∈ l, isHarmful x = false)
    (hlen : 1000 < l.length) :
    validate_and_prepare_message l "user" = l.take 1000 ++ ellipsis := by
  unfold validate_and_prepare_message
  rw [pyStrip_eq_self hs,
    if_neg (by intro h; rw [h] at hlen; simp at hlen),
    collapseWs_eq_self hs, if_pos rfl]
  unfold truncateMessage
  rw [if_pos hlen, if_neg (by decide)]
  apply removeHarmful_eq_self
  intro x hx
  rcases List.mem_append.mp hx with h | h
  · exact hh x (List.take_subset 1000 l h)
  · simp only [ellipsis, List.mem_cons, List.not_mem_nil, or_false] at h
    rcases h with h | h | h <;> (rw [h]; decide)

theorem vapm_ai_no_dot_hard_cut (l : List Char)
    (hs : ∀ x ∈ l, isSpace x = false) (hh : ∀ x ∈ l, isHarmful x = false)
    (hd : ∀ x ∈ l, x ≠ '.') (hlen : 2500 < l.length) :
    validate_and_prepare_message l "ai" = l.take 2500 ++ ellipsis := by
  unfold validate_and_prepare_message
  rw [pyStrip_eq_self hs,
    if_neg (by intro h; rw [h] at hlen; simp at hlen),
    collapseWs_eq_self hs, if_neg (by decide)]
  unfold truncateMessage
  rw [if_pos hlen]
  simp only [if_pos rfl]
  rw [splitDotSpace_no_dot l [] hd]
  have hacc : accumSentences 2500 [] [List.reverse [] ++ l] = [] := by
    unfold accumSentences
    rw [if_neg (by simp; omega)]
  rw [hacc, if_pos rfl]
  apply removeHarmful_eq_self
  intro x hx
  rcases List.mem_append.mp hx with h | h
  · exact hh x (List.take_subset 2500 l h)
  · simp only [ellipsis, List.mem_cons, List.not_mem_nil, or_false] at h
    rcases h with h | h | h <;> (rw [h]; decide)

theorem vapm_1500A :
    validate_and_prepare_message (List.replicate 1500 'A') "user" =
      List.replicate 1000 'A' ++ ellipsis := by
  rw [vapm_user_hard_cut (List.replicate 1500 'A')
    (mem_replicate_pred (by decide)) (mem_replicate_pred (by decide))
    (by simp)]
  rw [List.take_replicate]
  norm_num

theorem vapm_2501B :
    validate_and_prepare_message (List.replicate 2501 'B') "ai" =
      List.replicate 2500 'B' ++ ellipsis := by
  rw [vapm_ai_no_dot_hard_cut (List.replicate 2501 'B')
    (mem_replicate_pred (by decide)) (mem_replicate_pred (by decide))
    (mem_replicate_pred (by decide)) (by simp)]
  rw [List.take_replicate]
  norm_num

theorem vapm_1200A_dev :
    validate_and_prepare_message (List.replicate 1200 'A' ++ ['क']) "user" =
      List.replicate 1000 'A' ++ ellipsis := by
  have hs : ∀ x ∈ List.replicate 1200 'A' ++ ['क'], isSpace x = false := by
    intro x hx
    rcases List.mem_append.mp hx with h | h
    · rw [List.eq_of_mem_replicate h]; decide
    · rw [List.mem_singleton.mp h]; decide
  have hh : ∀ x ∈ List.replicate 1200 'A' ++ ['क'], isHarmful x = false := by
    intro x hx
    rcases List.mem_append.mp hx with h | h
    · rw [List.eq_of_mem_replicate h]; decide
    · rw [List.mem_singleton.mp h]; decide
  rw [vapm_user_hard_cut _ hs hh (by simp)]
  rw [List.take_append_of_le_length (by simp), List.take_replicate]
  norm_num

theorem detect_language_english {l : List Char}
    (h : ∀ x ∈ l, (0x900 ≤ x.toNat && x.toNat ≤ 0x97F) = false) :
    detect_language l = "english" := by
  unfold detect_language
  rw [if_neg]
  intro hc
  rcases List.any_eq_true.mp hc with ⟨x, hx, hpx⟩
  rw [h x hx] at hpx
  cases hpx

theorem detect_repA_ellipsis_english (n : Nat) :
    detect_language (List.replicate n 'A' ++ ellipsis) = "english" := by
  apply detect_language_english
  intro x hx
  rcases List.mem_append.mp hx with h | h
  · rw [List.eq_of_mem_replicate h]; decide
  · simp only [ellipsis, List.mem_cons, List.not_mem_nil, or_false] at h
    rcases h with h | h | h <;> (rw [h]; decide)

/-! ## Claim theorems -/

/-- C1: for every FAISS search result of at most 5 pairs (the endpoint
searches with k = 5) and every verse map, `get_bible_verses` returns only
citations whose score is strictly below the configured 10.0 similarity
threshold, and at most 5 citations; moreover with the modelled exact
search, any k = 5 search feeds at most 5 pairs in. -/
theorem C1_retrieval_threshold (searchRes : List (Nat × ℚ)) (verseMap : Nat → VerseRec)
    (corpus : List (List ℚ)) (query : List ℚ) (hk : searchRes.length ≤ 5) :
    (∀ c ∈ get_bible_verses searchRes verseMap, c.score < SIMILARITY_THRESHOLD) ∧
    (get_bible_verses searchRes verseMap).length ≤ 5 ∧
    (get_bible_verses (indexSearch corpus query 5) verseMap).length ≤ 5 := by
  refine ⟨?_, ?_, ?_⟩
  · intro c hc
    unfold get_bible_verses at hc
    rcases List.mem_map.mp hc with ⟨p, hp, rfl⟩
    have h2 := (List.mem_filter.mp hp).2
    simpa using h2
  · unfold get_bible_verses
    rw [List.length_map]
    exact le_trans (List.length_filter_le _ _) hk
  · unfold get_bible_verses
    rw [List.length_map]
    refine le_trans (List.length_filter_le _ _) ?_
    unfold indexSearch
    rw [List.length_take]
    exact Nat.min_le_left _ _

/-- C1 witness: the theorem applied at a concrete two-element search
result (scores 3 and 12) and the empty-corpus search. -/
theorem C1_retrieval_threshold_witness :
    (∀ c ∈ get_bible_verses [(0, 3), (1, 12)] defaultVerseMap,
        c.score < SIMILARITY_THRESHOLD) ∧
    (get_bible_verses [(0, 3), (1, 12)] defaultVerseMap).length ≤ 5 ∧
    (get_bible_verses (indexSearch [] [] 5) defaultVerseMap).length ≤ 5 :=
  C1_retrieval_threshold [(0, 3), (1, 12)] defaultVerseMap [] [] (by decide)

/-- C3: on every call the rate limiter prunes exactly the timestamps older
than the 60-second window, rejects exactly when the pruned window already
holds 10 timestamps and then stores the pruned window unchanged (the new
timestamp is not recorded), and otherwise appends the current time and
admits; consequently, folding over 11 calls inside one window admits the
first ten and rejects the eleventh, and a later call past the window is
admitted again. -/
theorem C3_rate_limiter (w : List ℤ) (now : ℤ) :
    (∀ t ∈ pruneWindow w now, now - t < RATE_LIMIT_WINDOW) ∧
    (∀ t ∈ w, now - t < RATE_LIMIT_WINDOW → t ∈ pruneWindow w now) ∧
    ((rate_limit w now).1 = false ↔ RATE_LIMIT_REQUESTS ≤ (pruneWindow w now).length) ∧
    ((rate_limit w now).1 = false → (rate_limit w now).2 = pruneWindow w now) ∧
    ((rate_limit w now).1 = true → (rate_limit w now).2 = pruneWindow w now ++ [now]) ∧
    (runCalls [0, 1, 2, 3, 4, 5, 6, 7, 8, 9, 10, 65] []).1 =
      [true, true, true, true, true, true, true, true, true, true, false, true] := by
  refine ⟨?_, ?_, ?_, ?_, ?_, by decide⟩
  · intro t ht
    unfold pruneWindow at ht
    have h := (List.mem_filter.mp ht).2
    simpa using h
  · intro t ht h
    unfold pruneWindow
    exact List.mem_filter.mpr ⟨ht, by simpa using h⟩
  · simp only [rate_limit]
    split_ifs with h <;> simp [h]
  · simp only [rate_limit]
    split_ifs with h
    · intro _; rfl
    · intro hh; cases hh
  · simp only [rate_limit]
    split_ifs with h
    · intro hh; cases hh
    · intro _; rfl

/-- C3 witness: the theorem applied at a concrete window and call time,
discharging the admission-side implication there. -/
theorem C3_rate_limiter_witness :
    (rate_limit [0, 30] 45).1 = true ∧
    (rate_limit [0, 30] 45).2 = pruneWindow [0, 30] 45 ++ [45] :=
  ⟨by decide, (C3_rate_limiter [0, 30] 45).2.2.2.2.1 (by decide)⟩

/-- C5 counterexample: 1500 copies of the character A normalize, under the
inbound (user) policy, to a text of length 1003, not at most 1000: the
code cuts at 1000 characters and then appends the three-character
ellipsis marker after the cut. -/
theorem C5_counterexample :
    1000 < (validate_and_prepare_message (List.replicate 1500 'A') "user").length ∧
    (validate_and_prepare_message (List.replicate 1500 'A') "user").length = 1003 := by
  rw [vapm_1500A]
  refine ⟨?_, ?_⟩ <;> simp [ellipsis]

/-- C5 amended: every normalized inbound (user) text has length at most
1003 (the 1000-character hard cut plus the three-character ellipsis
marker); an input of 1500 copies of A normalizes to exactly the
1000-character cut followed by the marker, and such a request is accepted
by the endpoint rather than rejected for length (shown here with the
generation call timing out, so the response is determinate). -/
theorem C5_amended (msg : List Char) :
    (validate_and_prepare_message msg "user").length ≤ 1003 ∧
    validate_and_prepare_message (List.replicate 1500 'A') "user" =
      List.replicate 1000 'A' ++ ellipsis ∧
    (chat_endpoint [] 0 (List.replicate 1500 'A')
        "123e4567-e89b-12d3-a456-426614174000" true true true
        GenResult.timeout [] defaultVerseMap).result =
      Except.ok ⟨responseTimeout, [], "123e4567-e89b-12d3-a456-426614174000",
        "english", "success"⟩ := by
  refine ⟨?_, vapm_1500A, ?_⟩
  · have h := vapm_length_le msg "user"
    rw [if_pos rfl] at h
    exact h
  · have hstrip : pyStrip (List.replicate 1500 'A') = List.replicate 1500 'A' :=
      pyStrip_eq_self (mem_replicate_pred (by decide))
    have hum : validate_and_prepare_message (pyStrip (List.replicate 1500 'A')) "user" =
        List.replicate 1000 'A' ++ ellipsis := by rw [hstrip, vapm_1500A]
    have humstrip : pyStrip (List.replicate 1000 'A' ++ ellipsis) =
        List.replicate 1000 'A' ++ ellipsis := by
      apply pyStrip_eq_self
      intro x hx
      rcases List.mem_append.mp hx with h | h
      · rw [List.eq_of_mem_replicate h]; decide
      · simp only [ellipsis, List.mem_cons, List.not_mem_nil, or_false] at h
        rcases h with h | h | h <;> (rw [h]; decide)
    rw [chat_endpoint_admitted _ _ _ _ _ _ _ _ _ _ (by decide)]
    rw [chatBody_ok _ _ _ _ _ _ _ _
      (by rw [hstrip]; simp)
      (by rw [hum, humstrip]; simp [ellipsis])]
    dsimp only
    rw [hum]
    rw [guidance_timeout _ _ _ _ (by rw [humstrip]; simp [ellipsis])]
    rw [detect_repA_ellipsis_english]

/-- C8 counterexample: an assistant text of 2501 copies of B (one single
period-free segment, so no sentence boundary fits) normalizes to length
2503, exceeding the claimed 2500 bound: the hard-cut fallback appends the
three-character ellipsis after the 2500-character cut. -/
theorem C8_counterexample :
    2500 < (validate_and_prepare_message (List.replicate 2501 'B') "ai").length ∧
    (validate_and_prepare_message (List.replicate 2501 'B') "ai").length = 2503 := by
  rw [vapm_2501B]
  refine ⟨?_, ?_⟩ <;> simp [ellipsis]

/-- C8 amended: every normalized outbound (assistant) text has length at
most 2503: the sentence-accumulation loop keeps the running text within
2500 and the only overshoot is the hard-cut fallback, which appends the
three-character ellipsis to the 2500-character cut; 2501 copies of B yield
exactly that cut plus the marker. -/
theorem C8_amended (msg : List Char) (ss : List (List Char)) :
    (validate_and_prepare_message msg "ai").length ≤ 2503 ∧
    (accumSentences 2500 [] ss).length ≤ 2500 ∧
    validate_and_prepare_message (List.replicate 2501 'B') "ai" =
      List.replicate 2500 'B' ++ ellipsis := by
  refine ⟨?_, accumSentences_length_le 2500 ss [] (by simp), vapm_2501B⟩
  have h := vapm_length_le msg "ai"
  rw [if_neg (by decide)] at h
  exact h

theorem guidance_too_short (um : List Char) (lang : String) (gk : Bool)
    (gen : GenResult) (sr : List (Nat × ℚ)) (vm : Nat → VerseRec)
    (h : (pyStrip um).length < 3) :
    get_biblical_guidance um lang gk gen sr vm = ⟨responseTooShortQuery, [], lang⟩ := by
  unfold get_biblical_guidance
  rw [if_pos (Or.inr h)]

/-- C2 counterexample: with the generation call timing out on a valid
request, the endpoint returns the fallback-A text with empty citations,
but the status field of the response is the literal "success", not
"Degraded": the code has no degraded status. -/
theorem C2_counterexample :
    (chat_endpoint [] 0 "I am afraid of tomorrow".toList
        "123e4567-e89b-12d3-a456-426614174001" true true true
        GenResult.timeout [] defaultVerseMap).result =
      Except.ok ⟨responseTimeout, [], "123e4567-e89b-12d3-a456-426614174001",
        "english", "success"⟩ ∧
    "success" ≠ "Degraded" :=
  ⟨by decide, by decide⟩

/-- C2 amended: if the generation call exceeds the 30-second timeout on an
otherwise valid request, processing continues and the endpoint returns a
normal (non-error) response whose text is the fallback-A text and whose
citations are empty — but the status field it carries is the literal
"success"; the code never reports a Degraded status. -/
theorem C2_amended (w : List ℤ) (now : ℤ) (raw : List Char) (sid : String)
    (sessExists : Bool) (sr : List (Nat × ℚ)) (vm : Nat → VerseRec)
    (hquota : (pruneWindow w now).length < RATE_LIMIT_REQUESTS)
    (hraw : ¬ pyStrip raw = [])
    (h3 : 3 ≤ (pyStrip (validate_and_prepare_message (pyStrip raw) "user")).length) :
    (chat_endpoint w now raw sid true sessExists true GenResult.timeout sr vm).result =
      Except.ok ⟨responseTimeout, [], sid,
        detect_language (validate_and_prepare_message (pyStrip raw) "user"),
        "success"⟩ := by
  rw [chat_endpoint_admitted _ _ _ _ _ _ _ _ _ _ hquota]
  rw [chatBody_ok _ _ _ _ _ _ _ _ hraw (fun he => by rw [he] at h3; simp at h3)]
  dsimp only
  rw [guidance_timeout _ _ _ _ h3]

/-- C2 witness: the amended theorem applied at a concrete request. -/
theorem C2_amended_witness :
    (chat_endpoint [] 0 "Give me guidance please".toList
        "123e4567-e89b-12d3-a456-426614174002" true true true
        GenResult.timeout [] defaultVerseMap).result =
      Except.ok ⟨responseTimeout, [], "123e4567-e89b-12d3-a456-426614174002",
        detect_language (validate_and_prepare_message
          (pyStrip "Give me guidance please".toList) "user"), "success"⟩ :=
  C2_amended [] 0 "Give me guidance please".toList
    "123e4567-e89b-12d3-a456-426614174002" true [] defaultVerseMap
    (by decide) (by decide) (by decide)

/-- C4 counterexample: a request with a malformed session id, sent on an
empty rate-limit window at time 0, is rejected with the invalid-session
error, yet the stored window afterwards contains the new timestamp — the
rate-limit decorator charged admission before the session-id shape check
ran, so the malformed request consumed quota. -/
theorem C4_counterexample :
    (chat_endpoint [] 0 "hello there".toList "not-a-uuid" false true true
        GenResult.timeout [] defaultVerseMap).result =
      Except.error ⟨400, "Invalid session ID"⟩ ∧
    (chat_endpoint [] 0 "hello there".toList "not-a-uuid" false true true
        GenResult.timeout [] defaultVerseMap).window = [0] :=
  ⟨by decide, by decide⟩

/-- C4 amended: the session-id shape check runs after rate-limit admission
is charged: every request that passes admission and then fails the
session-id check is rejected with the invalid-session error but still
consumes quota — the stored window is the pruned window with the new
timestamp appended. -/
theorem C4_amended (w : List ℤ) (now : ℤ) (raw : List Char) (sid : String)
    (sessExists geminiKey : Bool) (gen : GenResult)
    (sr : List (Nat × ℚ)) (vm : Nat → VerseRec)
    (hquota : (pruneWindow w now).length < RATE_LIMIT_REQUESTS)
    (hraw : ¬ pyStrip raw = []) :
    (chat_endpoint w now raw sid false sessExists geminiKey gen sr vm).result =
      Except.error ⟨400, "Invalid session ID"⟩ ∧
    (chat_endpoint w now raw sid false sessExists geminiKey gen sr vm).window =
      pruneWindow w now ++ [now] := by
  rw [chat_endpoint_admitted _ _ _ _ _ _ _ _ _ _ hquota]
  unfold chatBody
  rw [if_neg hraw, if_pos rfl]
  exact ⟨rfl, rfl⟩

/-- C4 witness: the amended theorem applied at a concrete request. -/
theorem C4_amended_witness :
    (chat_endpoint [] 5 "hello".toList "bad-id" false true true
        GenResult.failure [] defaultVerseMap).result =
      Except.error ⟨400, "Invalid session ID"⟩ ∧
    (chat_endpoint [] 5 "hello".toList "bad-id" false true true
        GenResult.failure [] defaultVerseMap).window =
      pruneWindow [] 5 ++ [5] :=
  C4_amended [] 5 "hello".toList "bad-id" true true GenResult.failure []
    defaultVerseMap (by decide) (by decide)

/-- C6 counterexample: a generated text containing angle-bracket markup is
returned to the caller verbatim while its persisted copy is normalized
under the outbound policy: the response text the caller receives is not
the outbound-normalized text. -/
theorem C6_counterexample :
    (chat_endpoint [] 0 "I seek guidance about peace".toList
        "123e4567-e89b-12d3-a456-426614174003" true true true
        (GenResult.ok "blessings <b>dear friend</b> peace be with you".toList)
        [] defaultVerseMap).result =
      Except.ok ⟨"blessings <b>dear friend</b> peace be with you".toList, [],
        "123e4567-e89b-12d3-a456-426614174003", "english", "success"⟩ ∧
    (chat_endpoint [] 0 "I seek guidance about peace".toList
        "123e4567-e89b-12d3-a456-426614174003" true true true
        (GenResult.ok "blessings <b>dear friend</b> peace be with you".toList)
        [] defaultVerseMap).persisted =
      [⟨"user", "I seek guidance about peace".toList, "english", []⟩,
       ⟨"ai", "blessings bdear friend/b peace be with you".toList, "english", []⟩] ∧
    validate_and_prepare_message
        "blessings <b>dear friend</b> peace be with you".toList "ai" ≠
      "blessings <b>dear friend</b> peace be with you".toList :=
  ⟨by decide, by decide, by decide⟩

/-- C6 amended: outbound normalization is applied before persisting only:
on a successful generation the persisted assistant message text is the
outbound-normalized text, while the response returned to the caller is the
raw generated text, with the retrieval citations attached to both. -/
theorem C6_amended (w : List ℤ) (now : ℤ) (raw t : List Char) (sid : String)
    (sessExists : Bool) (sr : List (Nat × ℚ)) (vm : Nat → VerseRec)
    (hquota : (pruneWindow w now).length < RATE_LIMIT_REQUESTS)
    (hraw : ¬ pyStrip raw = [])
    (h3 : 3 ≤ (pyStrip (validate_and_prepare_message (pyStrip raw) "user")).length)
    (h10 : 10 ≤ (pyStrip t).length)
    (hnorm : ¬ pyStrip (validate_and_prepare_message t "ai") = []) :
    (chat_endpoint w now raw sid true sessExists true (GenResult.ok t) sr vm).result =
      Except.ok ⟨t, get_bible_verses sr vm, sid,
        detect_language (validate_and_prepare_message (pyStrip raw) "user"),
        "success"⟩ ∧
    (chat_endpoint w now raw sid true sessExists true (GenResult.ok t) sr vm).persisted =
      [⟨"user", validate_and_prepare_message (pyStrip raw) "user",
        detect_language (validate_and_prepare_message (pyStrip raw) "user"), []⟩,
       ⟨"ai", validate_and_prepare_message t "ai",
        detect_language (validate_and_prepare_message (pyStrip raw) "user"),
        get_bible_verses sr vm⟩] := by
  rw [chat_endpoint_admitted _ _ _ _ _ _ _ _ _ _ hquota]
  rw [chatBody_ok _ _ _ _ _ _ _ _ hraw (fun he => by rw [he] at h3; simp at h3)]
  dsimp only
  rw [guidance_ok _ _ t _ _ h3 h10]
  dsimp only
  rw [if_neg hnorm]
  exact ⟨rfl, rfl⟩

/-- C6 witness: the amended theorem applied at a concrete request whose
generated text carries markup, so the two texts differ. -/
theorem C6_amended_witness :
    (chat_endpoint [] 0 "What does scripture say about hope".toList
        "123e4567-e89b-12d3-a456-426614174005" true true true
        (GenResult.ok "hold <em>fast</em> to hope dear friend".toList)
        [] defaultVerseMap).result =
      Except.ok ⟨"hold <em>fast</em> to hope dear friend".toList,
        get_bible_verses [] defaultVerseMap,
        "123e4567-e89b-12d3-a456-426614174005",
        detect_language (validate_and_prepare_message
          (pyStrip "What does scripture say about hope".toList) "user"),
        "success"⟩ ∧
    (chat_endpoint [] 0 "What does scripture say about hope".toList
        "123e4567-e89b-12d3-a456-426614174005" true true true
        (GenResult.ok "hold <em>fast</em> to hope dear friend".toList)
        [] defaultVerseMap).persisted =
      [⟨"user", validate_and_prepare_message
          (pyStrip "What does scripture say about hope".toList) "user",
        detect_language (validate_and_prepare_message
          (pyStrip "What does scripture say about hope".toList) "user"), []⟩,
       ⟨"ai", validate_and_prepare_message
          "hold <em>fast</em> to hope dear friend".toList "ai",
        detect_language (validate_and_prepare_message
          (pyStrip "What does scripture say about hope".toList) "user"),
        get_bible_verses [] defaultVerseMap⟩] :=
  C6_amended [] 0 "What does scripture say about hope".toList
    "hold <em>fast</em> to hope dear friend".toList
    "123e4567-e89b-12d3-a456-426614174005" true [] defaultVerseMap
    (by decide) (by decide) (by decide) (by decide) (by decide)

/-- C7 counterexample: the inbound text "hi" normalizes to 2 significant
characters (fewer than 3), yet the request is not rejected with an
empty-input validation error: it returns status "success", the user
message is persisted, and the response is the canned clarification text
substituted by the guidance step. -/
theorem C7_counterexample :
    (chat_endpoint [] 0 "hi".toList "123e4567-e89b-12d3-a456-426614174004"
        true true true GenResult.timeout [] defaultVerseMap).result =
      Except.ok ⟨responseTooShortQuery, [],
        "123e4567-e89b-12d3-a456-426614174004", "english", "success"⟩ ∧
    (chat_endpoint [] 0 "hi".toList "123e4567-e89b-12d3-a456-426614174004"
        true true true GenResult.timeout [] defaultVerseMap).persisted =
      [⟨"user", "hi".toList, "english", []⟩,
       ⟨"ai", responseTooShortQuery, "english", []⟩] :=
  ⟨by decide, by decide⟩

/-- C7 amended: only an inbound text that strips to empty is rejected
(400 empty-message) with nothing persisted — though after rate-limit
admission was already charged; an inbound text that survives the strip but
whose normalized form has fewer than 3 significant characters is not
rejected: the user message is persisted and the endpoint returns the
canned clarification response with status "success" and empty citations. -/
theorem C7_amended :
    (∀ (w : List ℤ) (now : ℤ) (raw : List Char) (sid : String)
        (sv se gk : Bool) (gen : GenResult) (sr : List (Nat × ℚ))
        (vm : Nat → VerseRec),
      (pruneWindow w now).length < RATE_LIMIT_REQUESTS →
      pyStrip raw = [] →
      (chat_endpoint w now raw sid sv se gk gen sr vm).result =
        Except.error ⟨400, "Message cannot be empty"⟩ ∧
      (chat_endpoint w now raw sid sv se gk gen sr vm).persisted = []) ∧
    (∀ (w : List ℤ) (now : ℤ) (raw : List Char) (sid : String)
        (se gk : Bool) (gen : GenResult) (sr : List (Nat × ℚ))
        (vm : Nat → VerseRec),
      (pruneWindow w now).length < RATE_LIMIT_REQUESTS →
      ¬ pyStrip raw = [] →
      ¬ pyStrip (validate_and_prepare_message (pyStrip raw) "user") = [] →
      (pyStrip (validate_and_prepare_message (pyStrip raw) "user")).length < 3 →
      (chat_endpoint w now raw sid true se gk gen sr vm).result =
        Except.ok ⟨responseTooShortQuery, [], sid,
          detect_language (validate_and_prepare_message (pyStrip raw) "user"),
          "success"⟩ ∧
      ∃ rest, (chat_endpoint w now raw sid true se gk gen sr vm).persisted =
        ⟨"user", validate_and_prepare_message (pyStrip raw) "user",
         detect_language (validate_and_prepare_message (pyStrip raw) "user"),
         []⟩ :: rest) := by
  constructor
  · intro w now raw sid sv se gk gen sr vm hquota hempty
    rw [chat_endpoint_admitted _ _ _ _ _ _ _ _ _ _ hquota]
    unfold chatBody
    rw [if_pos hempty]
    exact ⟨rfl, rfl⟩
  · intro w now raw sid se gk gen sr vm hquota hraw hum hlt
    rw [chat_endpoint_admitted _ _ _ _ _ _ _ _ _ _ hquota]
    rw [chatBody_ok _ _ _ _ _ _ _ _ hraw hum]
    dsimp only
    rw [guidance_too_short _ _ _ _ _ _ hlt]
    exact ⟨rfl, _, rfl⟩

/-- C7 witness: both parts of the amended theorem applied at concrete
requests (a whitespace-only text, and the two-character text "hi"). -/
theorem C7_amended_witness :
    ((chat_endpoint [] 0 "   ".toList "123e4567-e89b-12d3-a456-426614174006"
        true true true GenResult.timeout [] defaultVerseMap).result =
      Except.error ⟨400, "Message cannot be empty"⟩ ∧
     (chat_endpoint [] 0 "   ".toList "123e4567-e89b-12d3-a456-426614174006"
        true true true GenResult.timeout [] defaultVerseMap).persisted = []) ∧
    ((chat_endpoint [] 0 "hi".toList "123e4567-e89b-12d3-a456-426614174006"
        true true true GenResult.timeout [] defaultVerseMap).result =
      Except.ok ⟨responseTooShortQuery, [],
        "123e4567-e89b-12d3-a456-426614174006",
        detect_language (validate_and_prepare_message
          (pyStrip "hi".toList) "user"), "success"⟩ ∧
     ∃ rest, (chat_endpoint [] 0 "hi".toList
        "123e4567-e89b-12d3-a456-426614174006"
        true true true GenResult.timeout [] defaultVerseMap).persisted =
       ⟨"user", validate_and_prepare_message (pyStrip "hi".toList) "user",
        detect_language (validate_and_prepare_message (pyStrip "hi".toList) "user"),
        []⟩ :: rest) :=
  ⟨C7_amended.1 [] 0 "   ".toList "123e4567-e89b-12d3-a456-426614174006"
      true true true GenResult.timeout [] defaultVerseMap (by decide) (by decide),
   C7_amended.2 [] 0 "hi".toList "123e4567-e89b-12d3-a456-426614174006"
      true true GenResult.timeout [] defaultVerseMap
      (by decide) (by decide) (by decide) (by decide)⟩

/-- C10: the language used for the created session record, every persisted
message, and the returned response is `detect_language` applied to the
already-normalized user message (stripped, truncated, harmful characters
removed), not to the raw input; in particular an input whose only
Devanagari character lies beyond the 1000-character truncation point is
classified english even though the raw input classifies hindi. -/
theorem C10_language (w : List ℤ) (now : ℤ) (raw : List Char) (sid : String)
    (gk : Bool) (gen : GenResult) (sr : List (Nat × ℚ)) (vm : Nat → VerseRec)
    (hquota : (pruneWindow w now).length < RATE_LIMIT_REQUESTS)
    (hraw : ¬ pyStrip raw = [])
    (hum : ¬ pyStrip (validate_and_prepare_message (pyStrip raw) "user") = []) :
    (chat_endpoint w now raw sid true false gk gen sr vm).sessionLanguage =
      some (detect_language (validate_and_prepare_message (pyStrip raw) "user")) ∧
    (∀ m ∈ (chat_endpoint w now raw sid true false gk gen sr vm).persisted,
      m.language =
        detect_language (validate_and_prepare_message (pyStrip raw) "user")) ∧
    ((chat_endpoint w now raw sid true false gk gen sr vm).result.toOption.map
        ChatResponse.language) =
      some (detect_language (validate_and_prepare_message (pyStrip raw) "user")) ∧
    detect_language (validate_and_prepare_message
      (pyStrip (List.replicate 1200 'A' ++ ['क'])) "user") = "english" ∧
    detect_language (List.replicate 1200 'A' ++ ['क']) = "hindi" := by
  have hstrip12 : pyStrip (List.replicate 1200 'A' ++ ['क']) =
      List.replicate 1200 'A' ++ ['क'] := by
    apply pyStrip_eq_self
    intro x hx
    rcases List.mem_append.mp hx with h | h
    · rw [List.eq_of_mem_replicate h]; decide
    · rw [List.mem_singleton.mp h]; decide
  rw [chat_endpoint_admitted _ _ _ _ _ _ _ _ _ _ hquota]
  rw [chatBody_ok _ _ _ _ _ _ _ _ hraw hum]
  refine ⟨rfl, ?_, rfl, ?_, ?_⟩
  · intro m hm
    dsimp only at hm
    rcases List.mem_cons.mp hm with h | h
    · rw [h]
    · revert h
      split
      · intro h; cases h
      · intro h; rw [List.mem_singleton.mp h]
  · rw [hstrip12, vapm_1200A_dev, detect_repA_ellipsis_english]
  · unfold detect_language
    rw [if_pos]
    exact List.any_eq_true.mpr ⟨'क', List.mem_append.mpr (Or.inr (by simp)), by decide⟩

/-- C10 witness: the theorem applied at a concrete request. -/
theorem C10_language_witness :
    (chat_endpoint [] 0 "What brings peace".toList
        "123e4567-e89b-12d3-a456-426614174007" true false true
        GenResult.timeout [] defaultVerseMap).sessionLanguage =
      some (detect_language (validate_and_prepare_message
        (pyStrip "What brings peace".toList) "user")) ∧
    (∀ m ∈ (chat_endpoint [] 0 "What brings peace".toList
        "123e4567-e89b-12d3-a456-426614174007" true false true
        GenResult.timeout [] defaultVerseMap).persisted,
      m.language = detect_language (validate_and_prepare_message
        (pyStrip "What brings peace".toList) "user")) ∧
    ((chat_endpoint [] 0 "What brings peace".toList
        "123e4567-e89b-12d3-a456-426614174007" true false true
        GenResult.timeout [] defaultVerseMap).result.toOption.map
        ChatResponse.language) =
      some (detect_language (validate_and_prepare_message
        (pyStrip "What brings peace".toList) "user")) ∧
    detect_language (validate_and_prepare_message
      (pyStrip (List.replicate 1200 'A' ++ ['क'])) "user") = "english" ∧
    detect_language (List.replicate 1200 'A' ++ ['क']) = "hindi" :=
  C10_language [] 0 "What brings peace".toList
    "123e4567-e89b-12d3-a456-426614174007" true GenResult.timeout []
    defaultVerseMap (by decide) (by decide) (by decide)

/-- C9: every k-nearest-neighbor search against a language index (the
FAISS call, modelled from the spec as exact search sorted by distance with
position tie-break) yields unique corpus positions sorted by
non-decreasing distance, ties broken by ascending position, and the
citations built from the result by `get_bible_verses` preserve the
ascending-distance order. -/
theorem C9_search_order (corpus : List (List ℚ)) (query : List ℚ) (k : Nat)
    (verseMap : Nat → VerseRec) :
    ((indexSearch corpus query k).map Prod.fst).Nodup ∧
    (indexSearch corpus query k).Pairwise (fun a b => a.2 ≤ b.2) ∧
    (indexSearch corpus query k).Pairwise (fun a b => a.2 = b.2 → a.1 < b.1) ∧
    (get_bible_verses (indexSearch corpus query k) verseMap).Pairwise
      (fun c d => c.score ≤ d.score) := by
  have hsorted : (List.insertionSort lexLe
      ((List.range corpus.length).zip (corpus.map (sqDist query)))).Pairwise lexLe :=
    List.sorted_insertionSort lexLe _
  have hsub : List.Sublist (indexSearch corpus query k)
      (List.insertionSort lexLe
        ((List.range corpus.length).zip (corpus.map (sqDist query)))) :=
    List.take_sublist _ _
  have hP : (indexSearch corpus query k).Pairwise lexLe :=
    List.Pairwise.sublist hsub hsorted
  have hperm := List.perm_insertionSort lexLe
    ((List.range corpus.length).zip (corpus.map (sqDist query)))
  have hmapfst :
      ((List.range corpus.length).zip (corpus.map (sqDist query))).map Prod.fst =
        List.range corpus.length :=
    List.map_fst_zip _ _ (by simp)
  have hnodup_sorted : ((List.insertionSort lexLe
      ((List.range corpus.length).zip (corpus.map (sqDist query)))).map
        Prod.fst).Nodup := by
    refine ((hperm.map Prod.fst).nodup_iff).mpr ?_
    rw [hmapfst]
    exact List.nodup_range _
  have hnodup : ((indexSearch corpus query k).map Prod.fst).Nodup :=
    List.Nodup.sublist (hsub.map Prod.fst) hnodup_sorted
  have hne : (indexSearch corpus query k).Pairwise (fun a b => a.1 ≠ b.1) :=
    List.pairwise_map.mp hnodup
  have hle : (indexSearch corpus query k).Pairwise (fun a b => a.2 ≤ b.2) :=
    hP.imp (fun h => by
      rcases h with h | ⟨h, _⟩
      · exact le_of_lt h
      · exact le_of_eq h)
  refine ⟨hnodup, hle, ?_, ?_⟩
  · refine (hP.and hne).imp ?_
    rintro a b ⟨hab, hne1⟩ heq
    rcases hab with h | ⟨_, hle2⟩
    · exact absurd (heq ▸ h) (lt_irrefl _)
    · exact lt_of_le_of_ne hle2 hne1
  · unfold get_bible_verses
    refine List.pairwise_map.mpr ?_
    exact List.Pairwise.sublist (List.filter_sublist _) hle

